import Mathlib

/-!
Shallow embedding of the `stu` crate of the HC-Wacom repository
(`src/stu/src/error.rs` and `src/stu/src/lib.rs`), together with theorems
checking the specification claims against this embedding.

Modelling conventions:
* Native integer status codes (`std::os::raw::c_int`) are modelled as `Int`.
* A Rust control-flow panic is modelled as `none`/`Prog.fatal`; a computation
  that can panic therefore lands in `Option` (or in the `Prog.fatal` leaf of
  the `Prog` program type below).
* The `stu_sys` crate (bindgen bindings to the vendor SDK) is not part of the
  sources under review; its status-code, report-id and inking-mode constants
  are modelled as distinct integer constants below.  Only their distinctness
  and identity matter to the claims, not their concrete values.
* `Handle<[T]>` (crate module `handle`, also absent from the sources under
  review) is, per the specification of the Native Memory Handle, an owned
  native slice with bounds-checked read access; it is modelled as `List`.
* Native calls are made observable through a small program type `Prog`:
  every native call is a `Prog.call` node carrying a flag that records
  whether the call happens under the connection mutex (`dispatch`), and the
  continuation receives the integer status the native call returned.
  Running a program against an environment that chooses every status yields
  the result (`none` on panic) and the trace of native calls, in order.
-/

/-- Decidable equality for `Except`, used to evaluate the embedded
operations on concrete inputs. -/
instance {ε α : Type} [DecidableEq ε] [DecidableEq α] :
    DecidableEq (Except ε α)
  | .ok a, .ok b => decidable_of_iff (a = b) (by simp)
  | .error a, .error b => decidable_of_iff (a = b) (by simp)
  | .ok _, .error _ => isFalse (by simp)
  | .error _, .ok _ => isFalse (by simp)

namespace Stu

/-- The public exception enumeration from `error.rs` (`enum Exception`). -/
inductive Exception where
  | WriteNotSupported
  | SystemError
  | NotConnected
  | DeviceRemoved
  | TimedOut
  | InputOutput
  | Other
deriving DecidableEq, Repr

/-- The internal error-code enumeration from `error.rs`
(`enum InternalErrorCode`). -/
inductive InternalErrorCode where
  | Unspecified
  | InvalidHandle
  | InvalidParameter
  | InvalidSizeOf
  | Unsupported
  | Exception (e : Exception)
deriving DecidableEq, Repr

/-! Native status-code constants of `stu_sys` (enum `tagWacomGSS_Return`).
Modelled from the spec: the `stu_sys` bindings are not among the sources
under review; the constants are given distinct integer values.  The long
Rust names `tagWacomGSS_Return_WacomGSS_Return_*` are shortened to
`WacomGSS_Return_*`. -/

def WacomGSS_Return_Success : Int := 0
def WacomGSS_Return_Unspecified : Int := 1
def WacomGSS_Return_InvalidHandle : Int := 2
def WacomGSS_Return_InvalidParameter : Int := 3
def WacomGSS_Return_InvalidParameterNullPointer : Int := 4
def WacomGSS_Return_Unsupported : Int := 5
def WacomGSS_Return_Error : Int := 6
def WacomGSS_Return_ErrorSizeof : Int := 7
def WacomGSS_Return_Exception_Unknown : Int := 16
def WacomGSS_Return_Exception_std : Int := 17
def WacomGSS_Return_Exception_system_error : Int := 18
def WacomGSS_Return_Exception_not_connected : Int := 19
def WacomGSS_Return_Exception_device_removed : Int := 20
def WacomGSS_Return_Exception_write_not_supported : Int := 21
/-- Models `tagWacomGSS_Return_WacomGSS_Return_Exception_io`. -/
def WacomGSS_Return_Exception_inputOutput : Int := 22
def WacomGSS_Return_Exception_timeout : Int := 23
def WacomGSS_Return_Exception_set : Int := 24
def WacomGSS_Return_Exception_ReportHandler : Int := 25
def WacomGSS_Return_Exception_EncryptionHandler : Int := 26

/-- `InternalErrorCode::from_wacom_stu` (`error.rs`, lines 151-174): the pure
translation of a native status code.  `some (.ok ())` models `Ok(())`,
`some (.error c)` models `Err(c)`, and `none` models the
`val => panic!(...)` arm for a code outside every defined set. -/
def InternalErrorCode.from_wacom_stu (what : Int) :
    Option (Except InternalErrorCode Unit) :=
  if what = WacomGSS_Return_Success then some (.ok ())
  else if what = WacomGSS_Return_Unspecified then some (.error .Unspecified)
  else if what = WacomGSS_Return_InvalidHandle then some (.error .InvalidHandle)
  else if what = WacomGSS_Return_InvalidParameter then some (.error .InvalidParameter)
  else if what = WacomGSS_Return_InvalidParameterNullPointer then some (.error .InvalidParameter)
  else if what = WacomGSS_Return_Unsupported then some (.error .Unsupported)
  else if what = WacomGSS_Return_Error then some (.error .Unspecified)
  else if what = WacomGSS_Return_ErrorSizeof then some (.error .InvalidSizeOf)
  else if what = WacomGSS_Return_Exception_Unknown then some (.error (.Exception .Other))
  else if what = WacomGSS_Return_Exception_std then some (.error (.Exception .Other))
  else if what = WacomGSS_Return_Exception_system_error then some (.error (.Exception .SystemError))
  else if what = WacomGSS_Return_Exception_not_connected then some (.error (.Exception .NotConnected))
  else if what = WacomGSS_Return_Exception_device_removed then some (.error (.Exception .DeviceRemoved))
  else if what = WacomGSS_Return_Exception_write_not_supported then some (.error (.Exception .WriteNotSupported))
  else if what = WacomGSS_Return_Exception_inputOutput then some (.error (.Exception .InputOutput))
  else if what = WacomGSS_Return_Exception_timeout then some (.error (.Exception .TimedOut))
  else if what = WacomGSS_Return_Exception_set then some (.error (.Exception .Other))
  else if what = WacomGSS_Return_Exception_ReportHandler then some (.error (.Exception .Other))
  else if what = WacomGSS_Return_Exception_EncryptionHandler then some (.error (.Exception .Other))
  else none

/-- The set of native status codes that `from_wacom_stu` recognises: the
success code, the misuse codes, the unsupported code and the exception
codes.  Every code outside this list falls into the panicking arm. -/
def definedStatusCodes : List Int :=
  [WacomGSS_Return_Success,
   WacomGSS_Return_Unspecified,
   WacomGSS_Return_InvalidHandle,
   WacomGSS_Return_InvalidParameter,
   WacomGSS_Return_InvalidParameterNullPointer,
   WacomGSS_Return_Unsupported,
   WacomGSS_Return_Error,
   WacomGSS_Return_ErrorSizeof,
   WacomGSS_Return_Exception_Unknown,
   WacomGSS_Return_Exception_std,
   WacomGSS_Return_Exception_system_error,
   WacomGSS_Return_Exception_not_connected,
   WacomGSS_Return_Exception_device_removed,
   WacomGSS_Return_Exception_write_not_supported,
   WacomGSS_Return_Exception_inputOutput,
   WacomGSS_Return_Exception_timeout,
   WacomGSS_Return_Exception_set,
   WacomGSS_Return_Exception_ReportHandler,
   WacomGSS_Return_Exception_EncryptionHandler]

/-- The payload of the public `struct Error` in `error.rs`: the exception
variant, the native message buffer and the secondary native code. -/
structure ExceptionDetails where
  exception : Exception
  data : List Int
  stu_code : Int
deriving DecidableEq, Repr

/-- A client/contract error constructed in `lib.rs`
(`ClientError::UnsupportedReportId`). -/
inductive ClientError where
  | UnsupportedReportId (report_id : Nat)
deriving DecidableEq, Repr

/-- The public error type.  `error.rs` defines the exception-carrying payload
(vendored here as `ExceptionDetails`); `lib.rs` additionally constructs
`Error::ClientError(..)`, so the public type carries both forms. -/
inductive Error where
  | Device (d : ExceptionDetails)
  | ClientError (c : ClientError)
deriving DecidableEq, Repr

/-- `struct InternalError` from `error.rs`: the internal code, the message
buffer fetched from `WacomGSS_getException`, and the secondary native code. -/
structure InternalError where
  code : InternalErrorCode
  data : List Int
  stu_code : Int
deriving DecidableEq, Repr

/-- `InternalError::internal_misbehavior` (`error.rs`, lines 84-89). -/
def InternalError.internal_misbehavior (e : InternalError) : Bool :=
  match e.code with
  | .Exception _ => false
  | _ => true

/-- `InternalError::unwrap_to_general` (`error.rs`, lines 92-105).  `none`
models the `panic!` on every non-`Exception` code. -/
def InternalError.unwrap_to_general (e : InternalError) : Option Error :=
  match e.code with
  | .Exception exception => some (.Device ⟨exception, e.data, e.stu_code⟩)
  | _ => none

/-! ## Observable native calls -/

/-- The native SDK entry points reached by the code under review.  The
`setInkingMode` constructor records the mode argument passed down. -/
inductive NativeCall where
  | getReportCountLengths
  | setClearScreen
  | setInkingMode (mode : Int)
  | getCapability
  | getException
  | disconnect
  | free
  | getUsbDevices
deriving DecidableEq, Repr

/-- A program over the native SDK.  `call guarded c k` performs native call
`c` (with `guarded = true` when the call happens inside
`RawTabletConnection::dispatch`, i.e. under the connection mutex) and
continues with the integer status it returned; `fatal` models a Rust
panic. -/
inductive Prog (α : Type) : Type where
  | pure (a : α)
  | call (guarded : Bool) (c : NativeCall) (k : Int → Prog α)
  | fatal

/-- Sequencing of programs. -/
def Prog.bind {α β : Type} : Prog α → (α → Prog β) → Prog β
  | .pure a, f => f a
  | .call g c k, f => .call g c (fun r => (k r).bind f)
  | .fatal, _ => .fatal

/-- An environment chooses the integer status every native call returns. -/
def Env : Type := NativeCall → Int

/-- Run a program against an environment, yielding the result (`none` when
the program panicked) and the trace of native calls in order, each paired
with its under-the-mutex flag. -/
def Prog.run {α : Type} : Prog α → Env → Option α × List (Bool × NativeCall)
  | .pure a, _ => (some a, [])
  | .call g c k, env =>
    let rest := (k (env c)).run env
    (rest.1, (g, c) :: rest.2)
  | .fatal, _ => (none, [])

/-- The calls of a trace that were issued under the connection mutex. -/
def guardedCalls (trace : List (Bool × NativeCall)) : List NativeCall :=
  (trace.filter (fun p => p.1)).map (fun p => p.2)

/-- `InternalError::from_wacom_stu` (`error.rs`, lines 108-130).  On a
non-success status it performs the follow-up native `WacomGSS_getException`
call (not under any connection mutex) to fetch the message buffer and the
secondary code; `excData` and `excStuCode` are the values that call writes
through its out-parameters.  The `.expect(..)` on the status of
`WacomGSS_getException` panics unless that status translates to success. -/
def InternalError.from_wacom_stu (what : Int) (excData : List Int)
    (excStuCode : Int) : Prog (Except InternalError Unit) :=
  match InternalErrorCode.from_wacom_stu what with
  | none => .fatal
  | some (.ok ()) => .pure (.ok ())
  | some (.error code) =>
    .call false .getException (fun excStatus =>
      match InternalErrorCode.from_wacom_stu excStatus with
      | some (.ok ()) => .pure (.error ⟨code, excData, excStuCode⟩)
      | _ => .fatal)

/-- The recurring `lib.rs` idiom
`InternalError::from_wacom_stu(result).map_err(InternalError::unwrap_to_general)`:
translate a native status, converting an internal error to a public one and
panicking (`fatal`) when the internal code is not an exception. -/
def checkStatus (result : Int) (excData : List Int) (excStuCode : Int) :
    Prog (Except Error Unit) :=
  (InternalError.from_wacom_stu result excData excStuCode).bind fun r =>
    match r with
    | .ok () => .pure (.ok ())
    | .error ie =>
      match ie.unwrap_to_general with
      | some e => .pure (.error e)
      | none => .fatal

/-! ## Report-id and inking-mode constants of `stu_sys`.
Modelled from the spec: the `stu_sys` bindings are not among the sources
under review; the report-id constants are given distinct natural values and
the inking modes distinct integers. -/

def WacomGSS_ReportId_Capability : Nat := 9
def WacomGSS_ReportId_ClearScreen : Nat := 32
def WacomGSS_ReportId_InkingMode : Nat := 33
def WacomGSS_InkingMode_Off : Int := 0
def WacomGSS_InkingMode_On : Int := 1

/-! ## The `Tablet` interface (`lib.rs`) -/

/-- The supported-report set computed in `Tablet::wrap` (`lib.rs`, lines
53-65): for each index `i` of the report-count-lengths table, `i` is marked
supported exactly when the entry at `i` is nonzero. -/
def supportedFromList (report_list : List Nat) : Finset Nat :=
  (Finset.range report_list.length).filter
    (fun i => report_list.getD i 0 ≠ 0)

/-- `struct Tablet` (`lib.rs`): the supported-report set cached at
connection time.  The raw guarded handle itself is left abstract; its use is
visible through the `guarded` flag on native calls. -/
structure Tablet where
  supported_reports : Finset Nat
deriving DecidableEq

/-- `Tablet::wrap` (`lib.rs`, lines 27-71).  The single guarded native call
is `WacomGSS_Interface_getReportCountLengths`; `report_list` is the table it
writes through its out-parameters when it succeeds.  Its status is put
through `from_wacom_stu(..).map_err(unwrap_to_general)`; on `Ok` the table
is kept, on `Err` (reachable only for exception-class statuses, everything
else having panicked inside `unwrap_to_general`) a warning is logged and
the table discarded, and in both cases `wrap` returns `Ok` with the
supported set built from whatever table remained. -/
def Tablet.wrap (excData : List Int) (excStuCode : Int)
    (report_list : List Nat) : Prog (Except Error Tablet) :=
  .call true .getReportCountLengths (fun result =>
    (checkStatus result excData excStuCode).bind (fun r =>
      let kept : Option (List Nat) :=
        match r with
        | .ok () => some report_list
        | .error _ => none
      let supported : Finset Nat :=
        match kept with
        | some l => supportedFromList l
        | none => ∅
      .pure (.ok ⟨supported⟩)))

/-- `Tablet::check_support` (`lib.rs`, lines 74-82).  A pure membership test
in the cached supported-report set; it is a `Prog` only to make visible that
it performs no native call. -/
def Tablet.check_support (t : Tablet) (report_id : Nat) :
    Prog (Except Error Unit) :=
  if report_id ∈ t.supported_reports then
    .pure (.ok ())
  else
    .pure (.error (.ClientError (.UnsupportedReportId report_id)))

/-- `Tablet::clear` (`lib.rs`, lines 85-93): gate on the `ClearScreen`
report id, then one guarded `WacomGSS_Protocol_setClearScreen` call whose
status goes through the translation layer. -/
def Tablet.clear (t : Tablet) (excData : List Int) (excStuCode : Int) :
    Prog (Except Error Unit) :=
  (t.check_support WacomGSS_ReportId_ClearScreen).bind fun chk =>
    match chk with
    | .error e => .pure (.error e)
    | .ok () =>
      .call true .setClearScreen (fun result =>
        checkStatus result excData excStuCode)

/-- `Tablet::inking` (`lib.rs`, lines 96-109): gate on the `InkingMode`
report id, choose the mode constant from `enabled`, then one guarded
`WacomGSS_Protocol_setInkingMode` call whose status goes through the
translation layer. -/
def Tablet.inking (t : Tablet) (enabled : Bool) (excData : List Int)
    (excStuCode : Int) : Prog (Except Error Unit) :=
  (t.check_support WacomGSS_ReportId_InkingMode).bind fun chk =>
    match chk with
    | .error e => .pure (.error e)
    | .ok () =>
      let mode := if enabled then WacomGSS_InkingMode_On
                  else WacomGSS_InkingMode_Off
      .call true (.setInkingMode mode) (fun result =>
        checkStatus result excData excStuCode)

/-- The five fixed-width fields of the native `WacomGSS_Capability` struct
read by `Tablet::capability`.  In the SDK they are fixed-width unsigned
integers; they are modelled as naturals. -/
structure WacomGSS_Capability where
  screenWidth : Nat
  screenHeight : Nat
  tabletMaxX : Nat
  tabletMaxY : Nat
  tabletMaxPressure : Nat
deriving DecidableEq, Repr

/-- `struct Capability` (`lib.rs`, lines 146-158). -/
structure Capability where
  display_width : Nat
  display_height : Nat
  input_width : Nat
  input_height : Nat
  input_depth : Nat
deriving DecidableEq, Repr

/-- `Capability::width` (`lib.rs`). -/
def Capability.width (c : Capability) : Nat := c.display_width

/-- `Capability::height` (`lib.rs`). -/
def Capability.height (c : Capability) : Nat := c.display_height

/-- `Capability::input_grid_width` (`lib.rs`). -/
def Capability.input_grid_width (c : Capability) : Nat := c.input_width

/-- `Capability::input_grid_height` (`lib.rs`). -/
def Capability.input_grid_height (c : Capability) : Nat := c.input_height

/-- `Capability::input_grid_pressure` (`lib.rs`). -/
def Capability.input_grid_pressure (c : Capability) : Nat := c.input_depth

/-- `Tablet::capability` (`lib.rs`, lines 112-136): gate on the `Capability`
report id, then one guarded `WacomGSS_Protocol_getCapability` call (passing
the struct size for ABI negotiation); `native` is the capability struct that
call fills in when it succeeds.  On translated success the five fields are
copied out through `u32::from` (lossless) into the public `Capability`. -/
def Tablet.capability (t : Tablet) (excData : List Int) (excStuCode : Int)
    (native : WacomGSS_Capability) : Prog (Except Error Capability) :=
  (t.check_support WacomGSS_ReportId_Capability).bind fun chk =>
    match chk with
    | .error e => .pure (.error e)
    | .ok () =>
      .call true .getCapability (fun result =>
        (checkStatus result excData excStuCode).bind fun r =>
          match r with
          | .error e => .pure (.error e)
          | .ok () =>
            .pure (.ok
              { display_width := native.screenWidth
                display_height := native.screenHeight
                input_width := native.tabletMaxX
                input_height := native.tabletMaxY
                input_depth := native.tabletMaxPressure }))

/-- `impl Drop for RawTabletConnection` (`lib.rs`, lines 212-219): one
`dispatch` whose closure calls `WacomGSS_Interface_disconnect` and then
`WacomGSS_Interface_free`, binding both statuses to `let _ =` (so neither
status is inspected and no failure can panic). -/
def RawTabletConnection.dropConnection : Prog Unit :=
  .call true .disconnect (fun _ =>
    .call true .free (fun _ =>
      .pure ()))

/-! ## Device enumeration (`lib.rs`) -/

/-- The USB descriptor fields of `stu_sys::WacomGSS_UsbDevice` read by
`Connector::info` (nested `usbDevice` struct flattened). -/
structure WacomGSS_UsbDevice where
  idVendor : Nat
  idProduct : Nat
  bcdDevice : Nat
deriving DecidableEq, Repr

/-- `struct Connector` (`lib.rs`, lines 249-251). -/
structure Connector where
  device : WacomGSS_UsbDevice
deriving DecidableEq, Repr

/-- `usize::MAX`, the saturation point of `usize::saturating_add`. -/
def usizeMax : Nat := 2 ^ 64 - 1

/-- `struct Connectors` (`lib.rs`, lines 290-293): the wrapped native device
array and the iteration index. -/
structure Connectors where
  values : List WacomGSS_UsbDevice
  index : Nat
deriving DecidableEq, Repr

/-- `Connectors::next` (`lib.rs`, lines 294-305): bounds-checked read of the
current element, then `index.saturating_add(1)`. -/
def Connectors.next (c : Connectors) : Option Connector × Connectors :=
  let val := (c.values[c.index]?).map (fun device => Connector.mk device)
  (val, ⟨c.values, min (c.index + 1) usizeMax⟩)

/-- Drain a `Connectors` iterator the way a `for` loop does: repeatedly call
`next` until it yields `none`, with `fuel` bounding the number of steps. -/
def Connectors.collect : Nat → Connectors → List Connector
  | 0, _ => []
  | fuel + 1, c =>
    match c.next with
    | (none, _) => []
    | (some x, c2) => x :: Connectors.collect fuel c2

/-- `list_devices` (`lib.rs`, lines 311-329): one native
`WacomGSS_getUsbDevices` call (no connection exists yet, so not under any
mutex); `devices` is the array it writes through its out-parameters on
success.  Its status goes through `InternalError::from_wacom_stu(..)` and
`.unwrap()`, which panics on every `Err`. -/
def list_devices (excData : List Int) (excStuCode : Int)
    (devices : List WacomGSS_UsbDevice) : Prog Connectors :=
  .call false .getUsbDevices (fun status =>
    (InternalError.from_wacom_stu status excData excStuCode).bind fun r =>
      match r with
      | .ok () => .pure ⟨devices, 0⟩
      | .error _ => .fatal)

/-! ## Concrete environments used to evaluate the operations -/

/-- Environment in which every native call reports the success status. -/
def env0 : Env := fun _ => WacomGSS_Return_Success

/-- Environment in which the enumeration call fails with the
`InvalidParameter` status and every other call succeeds. -/
def envFailEnumeration : Env := fun c =>
  match c with
  | .getUsbDevices => WacomGSS_Return_InvalidParameter
  | _ => WacomGSS_Return_Success

/-- Environment in which the report-count-lengths query fails with the
exception-class timeout status and every other call succeeds. -/
def envTimeoutReports : Env := fun c =>
  match c with
  | .getReportCountLengths => WacomGSS_Return_Exception_timeout
  | _ => WacomGSS_Return_Success

/-- Environment in which the report-count-lengths query fails with the
(non-exception) `Unsupported` status and every other call succeeds. -/
def envUnsupportedReports : Env := fun c =>
  match c with
  | .getReportCountLengths => WacomGSS_Return_Unsupported
  | _ => WacomGSS_Return_Success

/-! ## Helper lemmas on running programs -/

@[simp]
theorem Prog.run_pure {α : Type} (a : α) (env : Env) :
    (Prog.pure a).run env = (some a, []) := rfl

@[simp]
theorem Prog.run_fatal {α : Type} (env : Env) :
    (Prog.fatal : Prog α).run env = (none, []) := rfl

@[simp]
theorem Prog.run_call {α : Type} (g : Bool) (c : NativeCall)
    (k : Int → Prog α) (env : Env) :
    (Prog.call g c k).run env
      = (((k (env c)).run env).1, (g, c) :: ((k (env c)).run env).2) := rfl

@[simp]
theorem Prog.bind_pure {α β : Type} (a : α) (f : α → Prog β) :
    (Prog.pure a).bind f = f a := rfl

@[simp]
theorem Prog.bind_fatal {α β : Type} (f : α → Prog β) :
    (Prog.fatal : Prog α).bind f = Prog.fatal := rfl

@[simp]
theorem Prog.bind_call {α β : Type} (g : Bool) (c : NativeCall)
    (k : Int → Prog α) (f : α → Prog β) :
    (Prog.call g c k).bind f = Prog.call g c (fun r => (k r).bind f) := rfl

/-- The environment is stateless, so the result of a sequenced program is
the `Option.bind` of the results of its parts. -/
theorem Prog.run_bind_fst {α β : Type} (p : Prog α) (f : α → Prog β)
    (env : Env) :
    ((p.bind f).run env).1
      = ((p.run env).1).bind (fun a => ((f a).run env).1) := by
  induction p with
  | pure a => simp
  | call g c k ih => simp [ih (env c)]
  | fatal => simp

/-- The trace of a sequenced program is the trace of the first part followed
by the trace of the continuation, the latter empty when the first part
panicked. -/
theorem Prog.run_bind_snd {α β : Type} (p : Prog α) (f : α → Prog β)
    (env : Env) :
    ((p.bind f).run env).2
      = (p.run env).2 ++
          (match (p.run env).1 with
           | some a => ((f a).run env).2
           | none => []) := by
  induction p with
  | pure a => simp
  | call g c k ih =>
    simp only [Prog.bind_call, Prog.run_call, ih (env c), List.cons_append]
  | fatal => simp

@[simp]
theorem guardedCalls_nil : guardedCalls [] = [] := rfl

@[simp]
theorem guardedCalls_cons_true (c : NativeCall)
    (t : List (Bool × NativeCall)) :
    guardedCalls ((true, c) :: t) = c :: guardedCalls t := rfl

@[simp]
theorem guardedCalls_cons_false (c : NativeCall)
    (t : List (Bool × NativeCall)) :
    guardedCalls ((false, c) :: t) = guardedCalls t := rfl

/-- A non-exception internal code makes `unwrap_to_general` panic. -/
theorem unwrap_to_general_eq_none (c : InternalErrorCode) (d : List Int)
    (s : Int) (hc : ∀ e : Exception, c ≠ .Exception e) :
    (InternalError.mk c d s).unwrap_to_general = none := by
  cases c with
  | Exception e => exact absurd rfl (hc e)
  | _ => rfl

/-! ## Behaviour of the `checkStatus` translation idiom -/

/-- Translating the success status: `Ok` and no native call. -/
theorem checkStatus_run_success (r : Int) (d : List Int) (s : Int)
    (env : Env) (h : InternalErrorCode.from_wacom_stu r = some (.ok ())) :
    (checkStatus r d s).run env = (some (.ok ()), []) := by
  unfold checkStatus InternalError.from_wacom_stu
  rw [h]
  rfl

/-- Translating a status outside every defined set: immediate panic. -/
theorem checkStatus_run_unknown (r : Int) (d : List Int) (s : Int)
    (env : Env) (h : InternalErrorCode.from_wacom_stu r = none) :
    (checkStatus r d s).run env = (none, []) := by
  unfold checkStatus InternalError.from_wacom_stu
  rw [h]
  rfl

/-- Translating an exception-class status with a successful
`WacomGSS_getException` follow-up: the public `Error` with the fetched
details, after exactly one (unguarded) `getException` call. -/
theorem checkStatus_run_exception (r : Int) (d : List Int) (s : Int)
    (env : Env) (e : Exception)
    (h : InternalErrorCode.from_wacom_stu r = some (.error (.Exception e)))
    (hexc : InternalErrorCode.from_wacom_stu (env .getException)
      = some (.ok ())) :
    (checkStatus r d s).run env
      = (some (.error (.Device ⟨e, d, s⟩)), [(false, .getException)]) := by
  unfold checkStatus InternalError.from_wacom_stu
  rw [h]
  simp [hexc, InternalError.unwrap_to_general]

/-- Translating a non-exception error status: panic (inside
`unwrap_to_general`, or earlier if the `getException` follow-up itself does
not report success). -/
theorem checkStatus_run_misuse (r : Int) (d : List Int) (s : Int)
    (env : Env) (c : InternalErrorCode)
    (h : InternalErrorCode.from_wacom_stu r = some (.error c))
    (hc : ∀ e : Exception, c ≠ .Exception e) :
    ((checkStatus r d s).run env).1 = none := by
  unfold checkStatus InternalError.from_wacom_stu
  rw [h]
  rcases h2 : InternalErrorCode.from_wacom_stu (env .getException) with _ | r2
  · simp [h2]
  · rcases r2 with r2 | r2
    · simp [h2]
    · simp [h2, unwrap_to_general_eq_none c d s hc]

/-- The `checkStatus` idiom never issues a call under the connection mutex:
the only native call it can make is the unguarded `getException`. -/
theorem guardedCalls_checkStatus (r : Int) (d : List Int) (s : Int)
    (env : Env) :
    guardedCalls ((checkStatus r d s).run env).2 = [] := by
  unfold checkStatus InternalError.from_wacom_stu
  rcases h : InternalErrorCode.from_wacom_stu r with _ | r1
  · simp
  · rcases r1 with r1 | r1
    · rcases h2 : InternalErrorCode.from_wacom_stu (env .getException)
        with _ | r2
      · simp [h2]
      · rcases r2 with r2 | r2
        · simp [h2]
        · rcases hu : (InternalError.mk r1 d s).unwrap_to_general with _ | e
          · simp [h2, hu]
          · simp [h2, hu]
    · simp

/-- A native status code outside every defined set falls into the panicking
arm of `from_wacom_stu`. -/
theorem from_wacom_stu_outside (what : Int) (h : what ∉ definedStatusCodes) :
    InternalErrorCode.from_wacom_stu what = none := by
  simp only [definedStatusCodes, List.mem_cons, List.not_mem_nil, or_false,
    not_or] at h
  obtain ⟨h0, h1, h2, h3, h4, h5, h6, h7, h8, h9, h10, h11, h12, h13, h14,
    h15, h16, h17, h18⟩ := h
  unfold InternalErrorCode.from_wacom_stu
  rw [if_neg h0, if_neg h1, if_neg h2, if_neg h3, if_neg h4, if_neg h5,
    if_neg h6, if_neg h7, if_neg h8, if_neg h9, if_neg h10, if_neg h11,
    if_neg h12, if_neg h13, if_neg h14, if_neg h15, if_neg h16, if_neg h17,
    if_neg h18]

/-- A native status translates to `Ok` exactly when it is the success
code. -/
theorem from_wacom_stu_ok_iff (what : Int) :
    InternalErrorCode.from_wacom_stu what = some (.ok ())
      ↔ what = WacomGSS_Return_Success := by
  constructor
  · intro h
    by_contra h0
    by_cases hin : what ∈ definedStatusCodes
    · simp only [definedStatusCodes, List.mem_cons, List.not_mem_nil,
        or_false] at hin
      rcases hin with rfl | rfl | rfl | rfl | rfl | rfl | rfl | rfl | rfl |
        rfl | rfl | rfl | rfl | rfl | rfl | rfl | rfl | rfl | rfl
      · exact h0 rfl
      all_goals exact absurd h (by decide)
    · rw [from_wacom_stu_outside what hin] at h
      exact Option.noConfusion h
  · intro h
    subst h
    decide

/-! ## Behaviour of `Tablet::wrap` and enumeration helpers -/

/-- When the report-count-lengths query succeeds, `wrap` caches the
supported set computed from the table, after exactly one guarded native
call. -/
theorem wrap_run_success (excData : List Int) (excStuCode : Int)
    (report_list : List Nat) (env : Env)
    (h : env .getReportCountLengths = WacomGSS_Return_Success) :
    (Tablet.wrap excData excStuCode report_list).run env
      = (some (.ok ⟨supportedFromList report_list⟩),
         [(true, .getReportCountLengths)]) := by
  have hcs := checkStatus_run_success WacomGSS_Return_Success excData
    excStuCode env (by decide)
  unfold Tablet.wrap
  simp only [Prog.run_call, h, Prog.run_bind_fst, Prog.run_bind_snd, hcs]
  simp

/-- When the report-count-lengths query fails with an exception-class
status (and the exception-detail fetch succeeds), `wrap` still returns a
tablet, with an empty supported set. -/
theorem wrap_run_exception (excData : List Int) (excStuCode : Int)
    (report_list : List Nat) (env : Env) (e : Exception)
    (h : InternalErrorCode.from_wacom_stu (env .getReportCountLengths)
      = some (.error (.Exception e)))
    (hexc : InternalErrorCode.from_wacom_stu (env .getException)
      = some (.ok ())) :
    (Tablet.wrap excData excStuCode report_list).run env
      = (some (.ok ⟨(∅ : Finset Nat)⟩),
         [(true, .getReportCountLengths), (false, .getException)]) := by
  have hcs := checkStatus_run_exception _ excData excStuCode env e h hexc
  unfold Tablet.wrap
  simp only [Prog.run_call, Prog.run_bind_fst, Prog.run_bind_snd, hcs]
  simp

/-- When the report-count-lengths query fails with a non-exception status,
`wrap` panics inside `unwrap_to_general`. -/
theorem wrap_run_misuse (excData : List Int) (excStuCode : Int)
    (report_list : List Nat) (env : Env) (c : InternalErrorCode)
    (h : InternalErrorCode.from_wacom_stu (env .getReportCountLengths)
      = some (.error c))
    (hc : ∀ e : Exception, c ≠ .Exception e) :
    ((Tablet.wrap excData excStuCode report_list).run env).1 = none := by
  have hcs := checkStatus_run_misuse _ excData excStuCode env c h hc
  unfold Tablet.wrap
  simp only [Prog.run_call, Prog.run_bind_fst, hcs]
  simp

/-- `InternalError::from_wacom_stu` can only produce `Ok` when handed the
success status. -/
theorem from_wacom_stu_run_ok (what : Int) (d : List Int) (s : Int)
    (env : Env)
    (h : ((InternalError.from_wacom_stu what d s).run env).1
      = some (.ok ())) :
    what = WacomGSS_Return_Success := by
  unfold InternalError.from_wacom_stu at h
  rcases hw : InternalErrorCode.from_wacom_stu what with _ | r
  · rw [hw] at h
    simp at h
  · rcases r with c | u
    · rw [hw] at h
      simp only [Prog.run_call] at h
      rcases h2 : InternalErrorCode.from_wacom_stu (env .getException)
        with _ | r2
      · rw [h2] at h
        simp at h
      · rcases r2 with c2 | u2
        · rw [h2] at h
          simp at h
        · cases u2
          rw [h2] at h
          simp at h
    · cases u
      exact (from_wacom_stu_ok_iff what).mp hw

/-- Draining a fresh-enough `Connectors` yields the device array elements,
in order, one `Connector` each. -/
theorem collect_eq (fuel : Nat) :
    ∀ (l : List WacomGSS_UsbDevice) (i : Nat), l.length ≤ usizeMax →
      Connectors.collect fuel ⟨l, i⟩
        = ((l.drop i).take fuel).map Connector.mk := by
  induction fuel with
  | zero =>
    intro l i _
    simp [Connectors.collect]
  | succ fuel ih =>
    intro l i h
    by_cases hi : i < l.length
    · have hget : l[i]? = some l[i] := List.getElem?_eq_getElem hi
      have hmin : min (i + 1) usizeMax = i + 1 := by
        have : i + 1 ≤ usizeMax := le_trans hi h
        omega
      simp [Connectors.collect, Connectors.next, hget, hmin, ih l (i + 1) h]
      conv_rhs => rw [List.drop_eq_getElem_cons (l := l.map Connector.mk)
        (by simpa using hi)]
      simp
    · have hget : l[i]? = none := by
        rw [List.getElem?_eq_none]
        omega
      have hdrop : l.drop i = [] := List.drop_eq_nil_of_le (by omega)
      simp [Connectors.collect, Connectors.next, hget, hdrop]

/-! ## Claim theorems -/

/-- C1: the status-translation function `InternalErrorCode::from_wacom_stu`
maps the native success code to `Ok`, maps every code in the defined
exception/misuse/unsupported sets to the corresponding internal class, and
for every native status code outside those defined sets it is a hard
failure (panic, modelled as `none`) — in particular it never returns `Ok`
for such a code. -/
theorem C1_from_wacom_stu_total_classification :
    (InternalErrorCode.from_wacom_stu WacomGSS_Return_Success
        = some (.ok ())
     ∧ InternalErrorCode.from_wacom_stu WacomGSS_Return_Unspecified
        = some (.error .Unspecified)
     ∧ InternalErrorCode.from_wacom_stu WacomGSS_Return_InvalidHandle
        = some (.error .InvalidHandle)
     ∧ InternalErrorCode.from_wacom_stu WacomGSS_Return_InvalidParameter
        = some (.error .InvalidParameter)
     ∧ InternalErrorCode.from_wacom_stu
          WacomGSS_Return_InvalidParameterNullPointer
        = some (.error .InvalidParameter)
     ∧ InternalErrorCode.from_wacom_stu WacomGSS_Return_Unsupported
        = some (.error .Unsupported)
     ∧ InternalErrorCode.from_wacom_stu WacomGSS_Return_Error
        = some (.error .Unspecified)
     ∧ InternalErrorCode.from_wacom_stu WacomGSS_Return_ErrorSizeof
        = some (.error .InvalidSizeOf)
     ∧ InternalErrorCode.from_wacom_stu WacomGSS_Return_Exception_Unknown
        = some (.error (.Exception .Other))
     ∧ InternalErrorCode.from_wacom_stu WacomGSS_Return_Exception_std
        = some (.error (.Exception .Other))
     ∧ InternalErrorCode.from_wacom_stu
          WacomGSS_Return_Exception_system_error
        = some (.error (.Exception .SystemError))
     ∧ InternalErrorCode.from_wacom_stu
          WacomGSS_Return_Exception_not_connected
        = some (.error (.Exception .NotConnected))
     ∧ InternalErrorCode.from_wacom_stu
          WacomGSS_Return_Exception_device_removed
        = some (.error (.Exception .DeviceRemoved))
     ∧ InternalErrorCode.from_wacom_stu
          WacomGSS_Return_Exception_write_not_supported
        = some (.error (.Exception .WriteNotSupported))
     ∧ InternalErrorCode.from_wacom_stu
          WacomGSS_Return_Exception_inputOutput
        = some (.error (.Exception .InputOutput))
     ∧ InternalErrorCode.from_wacom_stu WacomGSS_Return_Exception_timeout
        = some (.error (.Exception .TimedOut))
     ∧ InternalErrorCode.from_wacom_stu WacomGSS_Return_Exception_set
        = some (.error (.Exception .Other))
     ∧ InternalErrorCode.from_wacom_stu
          WacomGSS_Return_Exception_ReportHandler
        = some (.error (.Exception .Other))
     ∧ InternalErrorCode.from_wacom_stu
          WacomGSS_Return_Exception_EncryptionHandler
        = some (.error (.Exception .Other)))
  ∧ (∀ what : Int, what ∉ definedStatusCodes →
      InternalErrorCode.from_wacom_stu what = none
      ∧ InternalErrorCode.from_wacom_stu what ≠ some (.ok ())) := by
  refine ⟨⟨rfl, rfl, rfl, rfl, rfl, rfl, rfl, rfl, rfl, rfl, rfl, rfl, rfl,
    rfl, rfl, rfl, rfl, rfl, rfl⟩, ?_⟩
  intro what h
  have hn := from_wacom_stu_outside what h
  refine ⟨hn, ?_⟩
  rw [hn]
  exact fun hc => Option.noConfusion hc

/-- C1 witness: the concrete undefined status code 100 is outside the
defined sets and is translated to a hard failure, never to `Ok`. -/
theorem C1_witness :
    (100 : Int) ∉ definedStatusCodes
    ∧ (InternalErrorCode.from_wacom_stu 100 = none
       ∧ InternalErrorCode.from_wacom_stu 100 ≠ some (.ok ())) :=
  ⟨by decide, C1_from_wacom_stu_total_classification.2 100 (by decide)⟩

/-- C2: internal misuse codes are never surfaced to the caller: an
`InternalError` is classified as crate misbehavior exactly when its code is
not an `Exception` variant, and `unwrap_to_general` panics (modelled as
`none`) exactly for those non-`Exception` codes instead of returning a
public `Error`. -/
theorem C2_misuse_never_surfaced :
    ∀ ie : InternalError,
      (ie.internal_misbehavior = true
        ↔ ∀ e : Exception, ie.code ≠ .Exception e)
    ∧ (ie.unwrap_to_general = none
        ↔ ∀ e : Exception, ie.code ≠ .Exception e) := by
  intro ie
  obtain ⟨c, d, s⟩ := ie
  cases c
  case Exception e =>
    exact ⟨iff_of_false (by simp [InternalError.internal_misbehavior])
        (fun hP => hP e rfl),
      iff_of_false (by simp [InternalError.unwrap_to_general])
        (fun hP => hP e rfl)⟩
  all_goals
    exact ⟨iff_of_true rfl (fun e h => InternalErrorCode.noConfusion h),
      iff_of_true rfl (fun e h => InternalErrorCode.noConfusion h)⟩

/-- C2 witness: the concrete misuse code `InvalidHandle` is classified as
crate misbehavior, and unwrapping it to a public error panics. -/
theorem C2_witness :
    (InternalError.mk .InvalidHandle [] 0).internal_misbehavior = true
    ∧ (InternalError.mk .InvalidHandle [] 0).unwrap_to_general = none :=
  ⟨(C2_misuse_never_surfaced ⟨.InvalidHandle, [], 0⟩).1.mpr
      (fun _ h => InternalErrorCode.noConfusion h),
   (C2_misuse_never_surfaced ⟨.InvalidHandle, [], 0⟩).2.mpr
      (fun _ h => InternalErrorCode.noConfusion h)⟩

/-- C3 counterexample: at the concrete `Unsupported` native status code,
the wrapper does not surface a public error: the status-to-caller
translation path panics (result `none`), and the internal error is
classified as crate misbehavior — contradicting the claim that
`Unsupported` surfaces as its own public error. -/
theorem C3_counterexample_unsupported_panics :
    ((checkStatus WacomGSS_Return_Unsupported [] 0).run env0).1 = none
    ∧ (InternalError.mk .Unsupported [] 0).internal_misbehavior = true := by
  decide

/-- C3 (amended): when a native call returns the `Unsupported` status code,
the wrapper treats it as an internal defect, not a public error: the
translated internal error is classified as crate misbehavior,
`unwrap_to_general` panics on it, and the translation path to the caller
panics in every environment. -/
theorem C3_unsupported_is_internal_defect :
    ∀ (excData : List Int) (excStuCode : Int) (env : Env),
      ((checkStatus WacomGSS_Return_Unsupported excData excStuCode).run
          env).1 = none
    ∧ (InternalError.mk .Unsupported excData
        excStuCode).internal_misbehavior = true
    ∧ (InternalError.mk .Unsupported excData excStuCode).unwrap_to_general
        = none := by
  intro d s env
  refine ⟨?_, rfl, rfl⟩
  exact checkStatus_run_misuse _ d s env .Unsupported (by decide)
    (fun e h => InternalErrorCode.noConfusion h)

/-- C4: `check_support` returns `Ok` exactly for the report ids present in
the supported-report set cached at connection time; otherwise it returns
the distinct unsupported-report-id client error (not a device exception),
issuing no native call at all. -/
theorem C4_check_support_iff :
    ∀ (t : Tablet) (report_id : Nat) (env : Env),
      (((t.check_support report_id).run env).1 = some (.ok ())
        ↔ report_id ∈ t.supported_reports)
    ∧ (report_id ∉ t.supported_reports →
        (t.check_support report_id).run env
          = (some (.error (.ClientError (.UnsupportedReportId report_id))),
             []))
    ∧ ((t.check_support report_id).run env).2 = [] := by
  intro t report_id env
  by_cases h : report_id ∈ t.supported_reports
  · simp [Tablet.check_support, h]
  · simp [Tablet.check_support, h]

/-- C4 witness: on a device supporting only report id 1, report id 2 is
rejected with the unsupported-report-id client error and no native call. -/
theorem C4_witness :
    ((Tablet.mk {1}).check_support 2).run env0
      = (some (.error (.ClientError (.UnsupportedReportId 2))), []) :=
  (C4_check_support_iff ⟨{1}⟩ 2 env0).2.1 (by decide)

/-- C5: `clear()` and `inking(enabled)` are gated operations: when the
operation's report id (`ClearScreen` for `clear`, `InkingMode` for
`inking`) is absent from the supported set, the call returns the
client/contract error with an empty native-call trace; when it is present,
the call issues exactly one native call under the connection's guard (the
corresponding protocol setter) and its result is the status of that call
mapped through the translation layer. -/
theorem C5_gated_clear_inking :
    ∀ (t : Tablet) (excData : List Int) (excStuCode : Int) (env : Env)
      (enabled : Bool),
      (WacomGSS_ReportId_ClearScreen ∉ t.supported_reports →
        (t.clear excData excStuCode).run env
          = (some (.error (.ClientError
              (.UnsupportedReportId WacomGSS_ReportId_ClearScreen))), []))
    ∧ (WacomGSS_ReportId_ClearScreen ∈ t.supported_reports →
        ((t.clear excData excStuCode).run env).1
            = ((checkStatus (env .setClearScreen) excData
                excStuCode).run env).1
        ∧ guardedCalls ((t.clear excData excStuCode).run env).2
            = [.setClearScreen])
    ∧ (WacomGSS_ReportId_InkingMode ∉ t.supported_reports →
        (t.inking enabled excData excStuCode).run env
          = (some (.error (.ClientError
              (.UnsupportedReportId WacomGSS_ReportId_InkingMode))), []))
    ∧ (WacomGSS_ReportId_InkingMode ∈ t.supported_reports →
        ((t.inking enabled excData excStuCode).run env).1
            = ((checkStatus
                (env (.setInkingMode (if enabled then WacomGSS_InkingMode_On
                  else WacomGSS_InkingMode_Off))) excData
                excStuCode).run env).1
        ∧ guardedCalls ((t.inking enabled excData excStuCode).run env).2
            = [.setInkingMode (if enabled then WacomGSS_InkingMode_On
                else WacomGSS_InkingMode_Off)]) := by
  intro t excData excStuCode env enabled
  refine ⟨?_, ?_, ?_, ?_⟩
  · intro h
    simp [Tablet.clear, Tablet.check_support, h]
  · intro h
    constructor
    · simp [Tablet.clear, Tablet.check_support, h]
    · simp [Tablet.clear, Tablet.check_support, h, guardedCalls_checkStatus]
  · intro h
    simp [Tablet.inking, Tablet.check_support, h]
  · intro h
    constructor
    · simp [Tablet.inking, Tablet.check_support, h]
    · simp [Tablet.inking, Tablet.check_support, h, guardedCalls_checkStatus]

/-- C5 witness: on a device supporting only the `InkingMode` report id,
`clear()` fails with the client error before any native call, and
`inking(true)` issues exactly the one guarded `setInkingMode` call. -/
theorem C5_witness :
    ((Tablet.mk {WacomGSS_ReportId_InkingMode}).clear [] 0).run env0
        = (some (.error (.ClientError
            (.UnsupportedReportId WacomGSS_ReportId_ClearScreen))), [])
    ∧ guardedCalls
        (((Tablet.mk {WacomGSS_ReportId_InkingMode}).inking true [] 0).run
          env0).2
        = [.setInkingMode WacomGSS_InkingMode_On] := by
  refine ⟨(C5_gated_clear_inking ⟨{WacomGSS_ReportId_InkingMode}⟩ [] 0 env0
    true).1 (by decide), ?_⟩
  have h := (C5_gated_clear_inking ⟨{WacomGSS_ReportId_InkingMode}⟩ [] 0
    env0 true).2.2.2 (by decide)
  simpa using h.2

/-- C6: for every successful `capability()` call, the five fixed-width
native fields are surfaced exactly and unmodified through the public
accessors of the returned `Capability` value. -/
theorem C6_capability_roundtrip :
    ∀ (t : Tablet) (excData : List Int) (excStuCode : Int)
      (native : WacomGSS_Capability) (env : Env) (cap : Capability),
      ((t.capability excData excStuCode native).run env).1
          = some (.ok cap) →
        cap.width = native.screenWidth
      ∧ cap.height = native.screenHeight
      ∧ cap.input_grid_width = native.tabletMaxX
      ∧ cap.input_grid_height = native.tabletMaxY
      ∧ cap.input_grid_pressure = native.tabletMaxPressure := by
  intro t excData excStuCode native env cap h
  by_cases hm : WacomGSS_ReportId_Capability ∈ t.supported_reports
  · simp only [Tablet.capability, Tablet.check_support, if_pos hm,
      Prog.bind_pure, Prog.run_call, Prog.run_bind_fst] at h
    rcases hcs : ((checkStatus (env .getCapability) excData
        excStuCode).run env).1 with _ | r
    · rw [hcs] at h
      simp at h
    · rw [hcs] at h
      rcases r with e | u
      · simp at h
      · cases u
        simp at h
        subst h
        exact ⟨rfl, rfl, rfl, rfl, rfl⟩
  · simp [Tablet.capability, Tablet.check_support, if_neg hm] at h

/-- C6 witness: with native fields (800, 480, 20000, 20000, 2047) the
returned capability surfaces exactly those values through the accessors. -/
theorem C6_witness :
    (((Tablet.mk {WacomGSS_ReportId_Capability}).capability [] 0
        ⟨800, 480, 20000, 20000, 2047⟩).run env0).1
      = some (.ok ⟨800, 480, 20000, 20000, 2047⟩)
    ∧ ((⟨800, 480, 20000, 20000, 2047⟩ : Capability).width = 800
       ∧ (⟨800, 480, 20000, 20000, 2047⟩ : Capability).height = 480
       ∧ (⟨800, 480, 20000, 20000, 2047⟩ : Capability).input_grid_width
          = 20000
       ∧ (⟨800, 480, 20000, 20000, 2047⟩ : Capability).input_grid_height
          = 20000
       ∧ (⟨800, 480, 20000, 20000, 2047⟩ : Capability).input_grid_pressure
          = 2047) :=
  ⟨by decide,
   C6_capability_roundtrip ⟨{WacomGSS_ReportId_Capability}⟩ [] 0
     ⟨800, 480, 20000, 20000, 2047⟩ env0 ⟨800, 480, 20000, 20000, 2047⟩
     (by decide)⟩

/-- C7 counterexample: a connection whose `getReportCountLengths` call
fails with the concrete non-success status `Unsupported` does not yield a
tablet with an empty supported set — `Tablet::wrap` panics instead
(`unwrap_to_general` aborts on the non-exception code), contradicting the
claim for "every non-success status". -/
theorem C7_counterexample_wrap_panics_on_unsupported :
    ((Tablet.wrap [] 0 [1]).run envUnsupportedReports).1 = none := by
  decide

/-- C7 (amended): when `getReportCountLengths` fails with an
exception-class status (and the exception-detail fetch succeeds), `Tablet`
construction still succeeds and returns a tablet with an empty
supported-report set; but when it fails with a non-exception status,
construction panics instead of succeeding. -/
theorem C7_wrap_best_effort :
    ∀ (excData : List Int) (excStuCode : Int) (report_list : List Nat)
      (env : Env),
      (∀ e : Exception,
        InternalErrorCode.from_wacom_stu (env .getReportCountLengths)
            = some (.error (.Exception e)) →
        InternalErrorCode.from_wacom_stu (env .getException)
            = some (.ok ()) →
        ((Tablet.wrap excData excStuCode report_list).run env).1
          = some (.ok ⟨(∅ : Finset Nat)⟩))
    ∧ (∀ c : InternalErrorCode,
        InternalErrorCode.from_wacom_stu (env .getReportCountLengths)
            = some (.error c) →
        (∀ e : Exception, c ≠ .Exception e) →
        ((Tablet.wrap excData excStuCode report_list).run env).1
          = none) := by
  intro excData excStuCode report_list env
  constructor
  · intro e h hexc
    rw [wrap_run_exception excData excStuCode report_list env e h hexc]
  · intro c h hc
    exact wrap_run_misuse excData excStuCode report_list env c h hc

/-- C7 witness: with `getReportCountLengths` failing with the
exception-class timeout status, construction succeeds with an empty
supported set. -/
theorem C7_witness :
    ((Tablet.wrap [] 0 [1, 2]).run envTimeoutReports).1
      = some (.ok ⟨(∅ : Finset Nat)⟩) :=
  (C7_wrap_best_effort [] 0 [1, 2] envTimeoutReports).1 .TimedOut
    (by decide) (by decide)

/-- C8: dropping the connection issues the native disconnect call and then
the native free call, in that order, each exactly once, both under the
connection guard, and does not panic whatever statuses the two native calls
report (the environment chooses them freely). -/
theorem C8_drop_disconnect_then_free :
    ∀ env : Env,
      RawTabletConnection.dropConnection.run env
        = (some (), [(true, .disconnect), (true, .free)]) := by
  intro env
  rfl

/-- C9: `list_devices()` performs one native enumeration call; on any
non-success status it panics (result `none`) rather than returning a
recoverable error; on success it exposes the device array as a sequence
yielding exactly one `Connector` per enumerated device in array order (an
empty array yielding the empty sequence as the normal outcome). -/
theorem C9_list_devices_spec :
    ∀ (excData : List Int) (excStuCode : Int)
      (devices : List WacomGSS_UsbDevice) (env : Env),
      (env .getUsbDevices ≠ WacomGSS_Return_Success →
        ((list_devices excData excStuCode devices).run env).1 = none)
    ∧ (env .getUsbDevices = WacomGSS_Return_Success →
        (list_devices excData excStuCode devices).run env
          = (some ⟨devices, 0⟩, [(false, .getUsbDevices)])
        ∧ (devices.length ≤ usizeMax →
            Connectors.collect devices.length ⟨devices, 0⟩
              = devices.map Connector.mk)) := by
  intro excData excStuCode devices env
  constructor
  · intro hne
    unfold list_devices
    simp only [Prog.run_call, Prog.run_bind_fst]
    rcases hr : ((InternalError.from_wacom_stu (env .getUsbDevices) excData
        excStuCode).run env).1 with _ | r
    · simp
    · rcases r with c | u
      · simp
      · cases u
        exact absurd (from_wacom_stu_run_ok _ excData excStuCode env hr) hne
  · intro hs
    constructor
    · unfold list_devices
      have hok : InternalError.from_wacom_stu (env .getUsbDevices) excData
          excStuCode = .pure (.ok ()) := by
        rw [hs]
        rfl
      simp [hok]
    · intro hlen
      rw [collect_eq devices.length devices 0 hlen]
      simp [List.take_length]

/-- C9 witness: a failed enumeration panics; a successful enumeration of
one device yields exactly that device as a connector, after one native
call. -/
theorem C9_witness :
    ((list_devices [] 0 [⟨1, 2, 3⟩]).run envFailEnumeration).1 = none
    ∧ (list_devices [] 0 [⟨1, 2, 3⟩]).run env0
        = (some ⟨[⟨1, 2, 3⟩], 0⟩, [(false, .getUsbDevices)])
    ∧ Connectors.collect 1 ⟨[⟨1, 2, 3⟩], 0⟩ = [⟨⟨1, 2, 3⟩⟩] := by
  refine ⟨(C9_list_devices_spec [] 0 [⟨1, 2, 3⟩] envFailEnumeration).1
    (by decide), ?_, ?_⟩
  · exact ((C9_list_devices_spec [] 0 [⟨1, 2, 3⟩] env0).2 rfl).1
  · have h := ((C9_list_devices_spec [] 0 [⟨1, 2, 3⟩] env0).2 rfl).2
      (by decide)
    simpa using h

/-- C10: after successful construction from a report-count-lengths table,
a report id is in the cached supported set exactly when it indexes a
nonzero entry of the table; ids at zero entries and ids at or beyond the
table length are unsupported. -/
theorem C10_supported_iff :
    ∀ (excData : List Int) (excStuCode : Int) (report_list : List Nat)
      (env : Env) (t : Tablet) (i : Nat),
      env .getReportCountLengths = WacomGSS_Return_Success →
      ((Tablet.wrap excData excStuCode report_list).run env).1
        = some (.ok t) →
      (i ∈ t.supported_reports
        ↔ i < report_list.length ∧ report_list.getD i 0 ≠ 0) := by
  intro excData excStuCode report_list env t i hs h
  rw [wrap_run_success excData excStuCode report_list env hs] at h
  simp only [Option.some.injEq, Except.ok.injEq] at h
  subst h
  simp [supportedFromList, Finset.mem_filter, Finset.mem_range]

/-- C10 witness: from the table `[0, 5]`, report id 1 (nonzero entry) is
supported while ids 0 (zero entry) and 2 (out of range) are not. -/
theorem C10_witness :
    ((1 ∈ (Tablet.mk (supportedFromList [0, 5])).supported_reports
        ↔ 1 < ([0, 5] : List Nat).length
          ∧ ([0, 5] : List Nat).getD 1 0 ≠ 0)
     ∧ (0 ∈ (Tablet.mk (supportedFromList [0, 5])).supported_reports
        ↔ 0 < ([0, 5] : List Nat).length
          ∧ ([0, 5] : List Nat).getD 0 0 ≠ 0)
     ∧ (2 ∈ (Tablet.mk (supportedFromList [0, 5])).supported_reports
        ↔ 2 < ([0, 5] : List Nat).length
          ∧ ([0, 5] : List Nat).getD 2 0 ≠ 0)) :=
  ⟨C10_supported_iff [] 0 [0, 5] env0 ⟨supportedFromList [0, 5]⟩ 1 rfl rfl,
   C10_supported_iff [] 0 [0, 5] env0 ⟨supportedFromList [0, 5]⟩ 0 rfl rfl,
   C10_supported_iff [] 0 [0, 5] env0 ⟨supportedFromList [0, 5]⟩ 2 rfl rfl⟩

end Stu
